import Mathlib

/-
  Verification development for libprovenance (src/src/relay.c).

  The file shallowly embeds the user-space provenance ingestion engine:
  the record dispatcher (relation_record, node_record, prov_record,
  long_prov_record, callback_job, long_callback_job), the name cache
  (name_exists_entry, name_add_entry, name_find_entry), the channel
  reader drain/slice loop (___read_relay) and the registration path
  (open_files, create_worker_pool, provenance_relay_register).

  Handlers, observers and the error sink are externally supplied function
  pointers; we track only whether each slot is set and record every call
  the engine makes as an element of an event trace, so that dispatch
  behaviour is fully observable.  Global mutable state (the name cache
  hash, the per-thread initialised latch, the per-CPU file tables) is
  passed explicitly.
-/

/-- Modelled from the spec: the type tags of a short record
(`union prov_elt`, header `linux/provenance_types.h`, not under src/).
The six relation kinds are mutually exclusive and map 1:1 to the six
relation predicates; the node kinds are the cases of node_record's
switch; `unknown isRel v` stands for any tag outside the known set,
with `isRel` the value of its relation bit. -/
inductive ShortTag
  | used | informed | generated | derived | influenced | associated
  | proc | task
  | inode_unknown | inode_link | inode_file | inode_directory
  | inode_char | inode_block | inode_pipe | inode_socket
  | msg | shm | packet | iattr
  | unknown (isRel : Bool) (v : Nat)
deriving DecidableEq

/-- Modelled from the spec: the type tags of a long record
(`union long_prov_elt`, header not under src/): string, path, address,
extended attribute, the three disclosed-node variants, packet content,
argument/environment, machine descriptor, plus unknown tags. -/
inductive LongTag
  | str | path | addr | xattr | entDisc | actDisc | agtDisc
  | pckcnt | arg | env | machine
  | unknown (v : Nat)
deriving DecidableEq

/-- Modelled from the spec: a long record carries its tag and, for the
ENT_PATH kind, the (identifier, name) pair used by the name cache.
The identifier is an opaque fixed-size key, modelled as a Nat. -/
structure LongRecord where
  tag : LongTag
  id : Nat
  name : String
deriving DecidableEq

/-- Modelled from the spec: the relation predicate `prov_is_used`
(header not under src/); exactly the tag of the used kind matches. -/
def prov_is_used : ShortTag → Bool
  | .used => true
  | _ => false

/-- Modelled from the spec: the relation predicate `prov_is_informed`. -/
def prov_is_informed : ShortTag → Bool
  | .informed => true
  | _ => false

/-- Modelled from the spec: the relation predicate `prov_is_generated`. -/
def prov_is_generated : ShortTag → Bool
  | .generated => true
  | _ => false

/-- Modelled from the spec: the relation predicate `prov_is_derived`. -/
def prov_is_derived : ShortTag → Bool
  | .derived => true
  | _ => false

/-- Modelled from the spec: the relation predicate `prov_is_influenced`. -/
def prov_is_influenced : ShortTag → Bool
  | .influenced => true
  | _ => false

/-- Modelled from the spec: the relation predicate `prov_is_associated`. -/
def prov_is_associated : ShortTag → Bool
  | .associated => true
  | _ => false

/-- Modelled from the spec: `prov_is_relation` — whether a short record's
tag denotes a relation (the six relation kinds, or an unknown tag whose
relation bit is set). -/
def prov_is_relation : ShortTag → Bool
  | .used | .informed | .generated | .derived | .influenced | .associated => true
  | .unknown r _ => r
  | _ => false

/-- The kind-specific handler slots of the operations table, used to
label handler-invocation events. -/
inductive Handler
  | used | informed | generated | derived | influenced | associated
  | proc | task | inode | msg | shm | packet | iattr
  | str | fileName | address | xattr | entDisc | actDisc | agtDisc
  | packetContent | arg | machine
deriving DecidableEq

/-- The runtime faults passed to record_error, each carrying the data
that the source interpolates into the formatted message. -/
inductive Fault
  | unknownRelation (t : ShortTag)
  | unknownNode (t : ShortTag)
  | unknownLongType (t : LongTag)
  | wrongSize (got expected : Nat)
  | readFailed (e : Nat)
  | pollFailed (rc : Int)
  | openFailed (cpu : Nat)
deriving DecidableEq

/-- One observable action of the engine.  `fault f` marks an invocation
of record_error (the message is formatted unconditionally); `errorOut f`
marks the call to the external log_error sink, made only when that slot
is set.  `cacheInsert` marks the name_add_entry call made while
dispatching an ENT_PATH long record. -/
inductive Event
  | initCalled
  | receivedProv
  | receivedLongProv
  | filterCalled
  | handler (h : Handler)
  | cacheInsert (id : Nat) (name : String)
  | fault (f : Fault)
  | errorOut (f : Fault)
deriving DecidableEq

def isHandlerEv : Event → Bool
  | .handler _ => true
  | _ => false

def isFaultEv : Event → Bool
  | .fault _ => true
  | _ => false

/-- The pre-dispatch stages: per-thread initialisation, the two
observer callbacks, and the filter predicate. -/
def isStageEv : Event → Bool
  | .initCalled => true
  | .receivedProv => true
  | .receivedLongProv => true
  | .filterCalled => true
  | _ => false

def isErrorOutEv : Event → Bool
  | .errorOut _ => true
  | _ => false

def isCacheInsertEv : Event → Bool
  | .cacheInsert _ _ => true
  | _ => false

def noErrorOut (evs : List Event) : Bool :=
  evs.all (fun e => !(isErrorOutEv e))

/-- Modelled from the spec: `struct provenance_ops` (provenance.h, not
under src/) — optional handler slots, a shared filter predicate, the
query-mode flag and the error sink.  Each function-pointer slot is
modelled by whether it is set; the filter keeps its predicate since its
boolean result steers the pipeline. -/
structure ProvenanceOps where
  init : Bool := false
  received_prov : Bool := false
  received_long_prov : Bool := false
  filter : Option (Sum ShortTag LongRecord → Bool) := none
  is_query : Bool := false
  log_error : Bool := false
  log_used : Bool := false
  log_informed : Bool := false
  log_generated : Bool := false
  log_derived : Bool := false
  log_influenced : Bool := false
  log_associated : Bool := false
  log_proc : Bool := false
  log_task : Bool := false
  log_inode : Bool := false
  log_msg : Bool := false
  log_shm : Bool := false
  log_packet : Bool := false
  log_iattr : Bool := false
  log_str : Bool := false
  log_file_name : Bool := false
  log_address : Bool := false
  log_xattr : Bool := false
  log_ent_disc : Bool := false
  log_act_disc : Bool := false
  log_agt_disc : Bool := false
  log_packet_content : Bool := false
  log_arg : Bool := false
  log_machine : Bool := false

/-- The name cache (the uthash table `nhash`): a list of
(identifier, pathname) entries, most recently added first. -/
abbrev NameCache := List (Nat × String)

/-- name_exists_entry: HASH_FIND under the cache mutex; true iff an
entry with this identifier is present. -/
def name_exists_entry (c : NameCache) (id : Nat) : Bool :=
  c.any (fun e => e.1 == id)

/-- name_add_entry (sequential behaviour): if name_exists_entry already
holds, return without touching the table; otherwise HASH_ADD a new
(identifier, name) entry. -/
def name_add_entry (c : NameCache) (id : Nat) (nm : String) : NameCache :=
  if name_exists_entry c id then c else (id, nm) :: c

/-- name_find_entry: HASH_FIND under the cache mutex; the stored string,
or none when the identifier is absent. -/
def name_find_entry (c : NameCache) (id : Nat) : Option String :=
  (c.find? (fun e => e.1 == id)).map (fun e => e.2)

/-- record_error: the message is formatted (vsnprintf) unconditionally —
the `fault` event — and handed to the external log_error sink only when
that slot of the operations table is set. -/
def record_error (ops : ProvenanceOps) (f : Fault) : List Event :=
  Event.fault f :: (if ops.log_error then [Event.errorOut f] else [])

/-- relation_record: the chained conditional of relay.c lines 295-312.
Each arm requires both that the tag match the arm's relation predicate
and that the corresponding handler slot be set; when no arm fires,
control reaches the final else and reports an unknown relation type. -/
def relation_record (ops : ProvenanceOps) (t : ShortTag) : List Event :=
  if prov_is_used t && ops.log_used then [Event.handler Handler.used]
  else if prov_is_informed t && ops.log_informed then [Event.handler Handler.informed]
  else if prov_is_generated t && ops.log_generated then [Event.handler Handler.generated]
  else if prov_is_derived t && ops.log_derived then [Event.handler Handler.derived]
  else if prov_is_influenced t && ops.log_influenced then [Event.handler Handler.influenced]
  else if prov_is_associated t && ops.log_associated then [Event.handler Handler.associated]
  else record_error ops (Fault.unknownRelation t)

/-- node_record: the switch of relay.c lines 322-363; a set slot is
called, an unset slot is skipped silently, and the default arm reports
an unknown node type. -/
def node_record (ops : ProvenanceOps) (t : ShortTag) : List Event :=
  match t with
  | .proc => if ops.log_proc then [Event.handler Handler.proc] else []
  | .task => if ops.log_task then [Event.handler Handler.task] else []
  | .inode_unknown | .inode_link | .inode_file | .inode_directory
  | .inode_char | .inode_block | .inode_pipe | .inode_socket =>
      if ops.log_inode then [Event.handler Handler.inode] else []
  | .msg => if ops.log_msg then [Event.handler Handler.msg] else []
  | .shm => if ops.log_shm then [Event.handler Handler.shm] else []
  | .packet => if ops.log_packet then [Event.handler Handler.packet] else []
  | .iattr => if ops.log_iattr then [Event.handler Handler.iattr] else []
  | _ => record_error ops (Fault.unknownNode t)

/-- prov_record: short records route to relation_record when the tag's
relation bit is set, otherwise to node_record. -/
def prov_record (ops : ProvenanceOps) (t : ShortTag) : List Event :=
  if prov_is_relation t then relation_record ops t else node_record ops t

/-- long_prov_record: the switch of relay.c lines 414-462.  The ENT_PATH
arm first calls name_add_entry on the record's (identifier, name) pair
and then, if set, the log_file_name handler; every other arm leaves the
cache untouched; the default arm reports an unknown long type. -/
def long_prov_record (ops : ProvenanceOps) (c : NameCache) (msg : LongRecord) :
    NameCache × List Event :=
  match msg.tag with
  | .str => (c, if ops.log_str then [Event.handler Handler.str] else [])
  | .path =>
      (name_add_entry c msg.id msg.name,
       Event.cacheInsert msg.id msg.name ::
         (if ops.log_file_name then [Event.handler Handler.fileName] else []))
  | .addr => (c, if ops.log_address then [Event.handler Handler.address] else [])
  | .xattr => (c, if ops.log_xattr then [Event.handler Handler.xattr] else [])
  | .entDisc => (c, if ops.log_ent_disc then [Event.handler Handler.entDisc] else [])
  | .actDisc => (c, if ops.log_act_disc then [Event.handler Handler.actDisc] else [])
  | .agtDisc => (c, if ops.log_agt_disc then [Event.handler Handler.agtDisc] else [])
  | .pckcnt =>
      (c, if ops.log_packet_content then [Event.handler Handler.packetContent] else [])
  | .arg => (c, if ops.log_arg then [Event.handler Handler.arg] else [])
  | .env => (c, if ops.log_arg then [Event.handler Handler.arg] else [])
  | .machine => (c, if ops.log_machine then [Event.handler Handler.machine] else [])
  | .unknown _ => (c, record_error ops (Fault.unknownLongType msg.tag))

/-- Modelled from the spec: the fixed sizes of the two record shapes,
`sizeof(union prov_elt)` and `sizeof(union long_prov_elt)` (headers not
under src/), kept abstract. -/
structure Sizes where
  prov_elt : Nat
  long_prov_elt : Nat
deriving DecidableEq

/-- The state shared with (or local to) a worker thread while it runs a
callback: the global name cache and the thread's initialised latch. -/
structure DispatchState where
  cache : NameCache
  initialised : Bool
deriving DecidableEq

/-- callback_job (relay.c lines 387-412): reject a record whose declared
size differs from sizeof(union prov_elt); otherwise run the per-thread
init latch, the received_prov observer, the query-mode cutoff and the
filter, then prov_record. -/
def callback_job (ops : ProvenanceOps) (sz : Sizes) (st : DispatchState)
    (prov_size : Nat) (data : ShortTag) : DispatchState × List Event :=
  if prov_size ≠ sz.prov_elt then
    (st, record_error ops (Fault.wrongSize prov_size sz.prov_elt))
  else
    let st1 := if !st.initialised && ops.init then
        { st with initialised := true } else st
    let ev0 : List Event := if !st.initialised && ops.init then [Event.initCalled] else []
    let ev1 : List Event := if ops.received_prov then [Event.receivedProv] else []
    if ops.is_query then (st1, ev0 ++ ev1)
    else
      match ops.filter with
      | none => (st1, ev0 ++ ev1 ++ prov_record ops data)
      | some f =>
          if f (Sum.inl data) then (st1, ev0 ++ ev1 ++ [Event.filterCalled])
          else (st1, ev0 ++ ev1 ++ [Event.filterCalled] ++ prov_record ops data)

/-- long_callback_job (relay.c lines 465-491): the same pipeline for the
long shape, dispatching through long_prov_record (which may update the
name cache). -/
def long_callback_job (ops : ProvenanceOps) (sz : Sizes) (st : DispatchState)
    (prov_size : Nat) (data : LongRecord) : DispatchState × List Event :=
  if prov_size ≠ sz.long_prov_elt then
    (st, record_error ops (Fault.wrongSize prov_size sz.long_prov_elt))
  else
    let st1 := if !st.initialised && ops.init then
        { st with initialised := true } else st
    let ev0 : List Event := if !st.initialised && ops.init then [Event.initCalled] else []
    let ev1 : List Event :=
      if ops.received_long_prov then [Event.receivedLongProv] else []
    if ops.is_query then (st1, ev0 ++ ev1)
    else
      match ops.filter with
      | none =>
          let r := long_prov_record ops st1.cache data
          ({ st1 with cache := r.1 }, ev0 ++ ev1 ++ r.2)
      | some f =>
          if f (Sum.inr data) then (st1, ev0 ++ ev1 ++ [Event.filterCalled])
          else
            let r := long_prov_record ops st1.cache data
            ({ st1 with cache := r.1 }, ev0 ++ ev1 ++ [Event.filterCalled] ++ r.2)

/-- Linux value of the would-block errno checked at relay.c line 516. -/
def EAGAIN : Nat := 11

/-- One result of the non-blocking read(2) at relay.c line 513: either
rc bytes were read (rc ≥ 0), or the read failed with the given errno. -/
inductive ReadResult
  | ok (n : Nat)
  | fail (errno : Nat)
deriving DecidableEq

/-- Outcome of the drain loop of ___read_relay: `aborted` when a
non-EAGAIN read error freed the buffer and returned (no dispatch),
`done size` when the loop exited with an accumulated length that is an
exact multiple of the record size, `starved size` when the modelled
read trace ran out while the loop would still be reading (the drain is
still in progress; nothing is dispatched within the model). -/
inductive DrainOut
  | aborted
  | done (size : Nat)
  | starved (size : Nat)
deriving DecidableEq

/-- The do-while read loop of ___read_relay (relay.c lines 512-522),
driven by a trace of read results.  The body runs first; a failed read
logs and then either continues (EAGAIN) or frees the buffer and returns
(any other errno); the loop condition `size % prov_size ≠ 0` is tested
after each body — also after an EAGAIN `continue`. -/
def drain_loop (ps : Nat) : List ReadResult → Nat → DrainOut
  | [], size => DrainOut.starved size
  | ReadResult.ok n :: rest, size =>
      if (size + n) % ps = 0 then DrainOut.done (size + n)
      else drain_loop ps rest (size + n)
  | ReadResult.fail e :: rest, size =>
      if e = EAGAIN then
        (if size % ps = 0 then DrainOut.done size else drain_loop ps rest size)
      else DrainOut.aborted

/-- The slicing while loop of ___read_relay (relay.c lines 530-535),
returning the buffer offsets passed to the callback, in call order.
The fuel argument bounds the iteration count; it never runs out when it
starts at `size` and the record size is positive (each iteration
removes at least one byte), matching the source where
prov_size = sizeof(union prov_elt) ≥ 1.  (With prov_size = 0 the C loop
would not terminate; the model stops at fuel exhaustion.) -/
def slice_go (ps : Nat) : Nat → Nat → Nat → List Nat
  | 0, _, _ => []
  | fuel + 1, size, i =>
      if size = 0 then []
      else i :: slice_go ps fuel (size - ps) (i + ps)

/-- The offsets at which the slicing phase invokes the callback when the
buffer holds `size` accumulated bytes, starting at offset `i` = 0. -/
def slice_calls (ps size i : Nat) : List Nat :=
  slice_go ps size size i

/-- ___read_relay (relay.c lines 505-537): drain the descriptor into the
buffer, then slice the buffer into prov_size-byte records, invoking the
callback at each offset.  An aborted drain dispatches nothing; a starved
drain is still in progress at the end of the modelled trace and has
dispatched nothing yet. -/
def ___read_relay (ps : Nat) (trace : List ReadResult) : List Nat :=
  match drain_loop ps trace 0 with
  | DrainOut.aborted => []
  | DrainOut.starved _ => []
  | DrainOut.done size => slice_calls ps size 0

/-- NUMBER_CPUS (relay.c line 35): the advertised 256-core maximum. -/
def NUMBER_CPUS : Nat := 256

/-- The environment a registration attempt runs in: the result of
provenance_set_opaque (modelled from the spec, provenance.h is not
under src/; 0 is success, a nonzero value is returned to the caller),
the online CPU count reported by sysconf, whether each per-CPU open(2)
succeeds (`open_ok cpu long?`), whether thpool_init yields a pool, and
whether the PID-file write and the cache-mutex init succeed. -/
structure RegEnv where
  opq_result : Int
  online_cpus : Nat
  open_ok : Nat → Bool → Bool
  pool_init_ok : Bool
  pid_ok : Bool
  nash_ok : Bool

/-- The registration-visible resources: the CPU indices whose short and
long channels are open, whether thpool_init produced a pool, and how
many reader tasks were submitted to it. -/
structure RegState where
  openShort : List Nat
  openLong : List Nat
  poolCreated : Bool
  poolTasks : Nat
deriving DecidableEq

def initRegState : RegState :=
  { openShort := [], openLong := [], poolCreated := false, poolTasks := 0 }

/-- The body of open_files' for loop (relay.c lines 212-225): for each
CPU index open the short channel then the long channel; the first
failure returns -1 immediately, leaving every descriptor opened so far
open.  `fuel` is the number of remaining indices. -/
def open_files_go (env : RegEnv) : Nat → Nat → RegState → Bool × RegState
  | 0, _, st => (true, st)
  | fuel + 1, i, st =>
      if env.open_ok i false then
        let st1 := { st with openShort := st.openShort ++ [i] }
        if env.open_ok i true then
          open_files_go env fuel (i + 1) { st1 with openLong := st1.openLong ++ [i] }
        else (false, st1)
      else (false, st)

/-- open_files (relay.c lines 201-227). -/
def open_files (env : RegEnv) (n : Nat) : Bool × RegState :=
  open_files_go env n 0 initRegState

/-- create_worker_pool (relay.c lines 255-276): thpool_init(2·ncpus) —
whose NULL result is never checked — then one reader task per opened
channel (2 per CPU).  The source returns 0 unconditionally. -/
def create_worker_pool (env : RegEnv) (n : Nat) (st : RegState) : Int × RegState :=
  (0, { st with poolCreated := env.pool_init_ok, poolTasks := 2 * n })

/-- provenance_relay_register (relay.c lines 149-182).  The assignment
`ncpus = sysconf(...)` stores into a uint8_t, so the CPU count is
truncated modulo 256 before the `ncpus > NUMBER_CPUS` guard runs.  On a
worker-pool failure the source would close all channels; PID-file or
cache-mutex failure returns -1 with the pool and channels left as they
are. -/
def provenance_relay_register (env : RegEnv) : Int × RegState :=
  if env.opq_result ≠ 0 then (env.opq_result, initRegState)
  else
    let ncpus := env.online_cpus % 256
    if ncpus > NUMBER_CPUS then (-1, initRegState)
    else
      let r := open_files env ncpus
      if !r.1 then (-1, r.2)
      else
        let p := create_worker_pool env ncpus r.2
        if p.1 ≠ 0 then (-1, { p.2 with openShort := [], openLong := [] })
        else if !env.pid_ok then (-1, p.2)
        else if !env.nash_ok then (-1, p.2)
        else (0, p.2)

/-- The per-thread control state of one name_add_entry call executing
concurrently: pc 0 = about to run the name_exists_entry critical
section, pc 1 = existence result in hand (lock released), about to run
the HASH_ADD critical section, pc 2 = returned. -/
structure ThreadState where
  pc : Nat
  found : Bool
deriving DecidableEq

/-- One atomic (mutex-protected) step of a concurrent name_add_entry
call inserting (id, nm).  Step pc 0 is the locked HASH_FIND inside
name_exists_entry; step pc 1 is the locked HASH_ADD, which the source
performs without re-checking existence — it trusts the earlier,
separately locked lookup. -/
def name_add_step (id : Nat) (nm : String) (c : NameCache) (t : ThreadState) :
    NameCache × ThreadState :=
  match t.pc with
  | 0 => (c, { pc := 1, found := name_exists_entry c id })
  | 1 =>
      if t.found then (c, { t with pc := 2 })
      else ((id, nm) :: c, { t with pc := 2 })
  | _ => (c, t)

/-- Run two concurrent name_add_entry calls for the same identifier —
thread A inserting (id, na), thread B inserting (id, nb) — under a
schedule listing which thread takes the next atomic step (true = A). -/
def run_sched (id : Nat) (na nb : String) :
    List Bool → NameCache → ThreadState → ThreadState → NameCache
  | [], c, _, _ => c
  | true :: rest, c, ta, tb =>
      let r := name_add_step id na c ta
      run_sched id na nb rest r.1 r.2 tb
  | false :: rest, c, ta, tb =>
      let r := name_add_step id nb c tb
      run_sched id na nb rest r.1 ta r.2

/-- An operations table with every slot unset. -/
def opsAllUnset : ProvenanceOps := {}

/-- An operations table whose only set slot is the error sink. -/
def opsLogErrOnly : ProvenanceOps := { log_error := true }

/-- A sizes assignment used by concrete evaluations. -/
def sz0 : Sizes := { prov_elt := 64, long_prov_elt := 256 }

/-- An initial dispatch state: empty cache, latch not yet run. -/
def st0 : DispatchState := { cache := [], initialised := false }

/-- A long record of the string kind, for concrete evaluations. -/
def lr0 : LongRecord := { tag := LongTag.str, id := 0, name := "" }

/-- A registration environment in which everything succeeds except the
PID-file write, on a 2-CPU machine. -/
def envPidFail : RegEnv :=
  { opq_result := 0, online_cpus := 2, open_ok := fun _ _ => true,
    pool_init_ok := true, pid_ok := false, nash_ok := true }

/-- A registration environment on a machine with 300 online CPUs where
every other step succeeds. -/
def env300 : RegEnv :=
  { opq_result := 0, online_cpus := 300, open_ok := fun _ _ => true,
    pool_init_ok := true, pid_ok := true, nash_ok := true }

/- ## Helper lemmas -/

lemma slice_go_mul (ps : Nat) (hps : 0 < ps) :
    ∀ (k i fuel : Nat), k * ps ≤ fuel →
      slice_go ps fuel (k * ps) i = (List.range k).map (fun j => i + j * ps) := by
  intro k
  induction k with
  | zero =>
      intro i fuel _
      cases fuel with
      | zero => simp [slice_go]
      | succ f => simp [slice_go]
  | succ k ih =>
      intro i fuel hf
      have hnz : (k + 1) * ps ≠ 0 := by positivity
      cases fuel with
      | zero => omega
      | succ f =>
          have hsub : (k + 1) * ps - ps = k * ps := by
            rw [Nat.succ_mul]; omega
          have hle : k * ps ≤ f := by
            rw [Nat.succ_mul] at hf; omega
          simp only [slice_go, if_neg hnz, hsub, ih (i + ps) f hle]
          rw [List.range_succ_eq_map]
          simp only [List.map_cons, List.map_map]
          refine List.cons_eq_cons.mpr ⟨by omega, ?_⟩
          apply List.map_congr_left
          intro j _
          simp only [Function.comp_apply, Nat.succ_mul, Nat.succ_eq_add_one]
          omega

example : slice_calls 4 (3 * 4) 0 = [0, 4, 8] := by decide

/- ## Claim theorems -/

/-- Claim C4: for every buffer whose accumulated length is an exact
multiple k of the record size, the slicing phase of ___read_relay
invokes the dispatch callback exactly k times, once per consecutive
record_size-byte slice, in increasing buffer-offset order: the invoked
offsets are exactly 0, ps, 2·ps, …, (k-1)·ps, and any drain that ends
with such a length dispatches at exactly those offsets. -/
theorem c4_slicing_exact_multiple :
    ∀ (ps k : Nat) (trace : List ReadResult), 0 < ps →
      slice_calls ps (k * ps) 0 = (List.range k).map (fun j => j * ps) ∧
      (slice_calls ps (k * ps) 0).length = k ∧
      (drain_loop ps trace 0 = DrainOut.done (k * ps) →
        ___read_relay ps trace = (List.range k).map (fun j => j * ps)) := by
  intro ps k trace hps
  have h := slice_go_mul ps hps k 0 (k * ps) (le_refl _)
  have hcalls : slice_calls ps (k * ps) 0 = (List.range k).map (fun j => j * ps) := by
    rw [slice_calls, h]
    simp
  refine ⟨hcalls, ?_, ?_⟩
  · rw [hcalls]; simp
  · intro hd
    rw [___read_relay, hd]
    simpa using hcalls

/-- Witness for C4 at ps = 4, k = 3, trace = [ok 12]. -/
theorem c4_slicing_witness :
    slice_calls 4 (3 * 4) 0 = [0, 4, 8] ∧
    (slice_calls 4 (3 * 4) 0).length = 3 ∧
    ___read_relay 4 [ReadResult.ok 12] = [0, 4, 8] := by
  have h := c4_slicing_exact_multiple 4 3 [ReadResult.ok 12] (by decide)
  refine ⟨h.1.trans (by decide), h.2.1, (h.2.2 (by decide)).trans (by decide)⟩

/-- Claim C6: sequentially, a second insert with the same identifier is
a no-op regardless of its payload — after insert(id, a) then
insert(id, b), lookup(id) returns a; exists(id) is true after either
insert; and exists stays false for an identifier never inserted. -/
theorem c6_name_cache_first_writer :
    ∀ (c : NameCache) (id id2 : Nat) (a b : String),
      name_exists_entry c id = false →
      name_exists_entry c id2 = false →
      id2 ≠ id →
      name_find_entry (name_add_entry (name_add_entry c id a) id b) id = some a ∧
      name_exists_entry (name_add_entry c id a) id = true ∧
      name_exists_entry (name_add_entry (name_add_entry c id a) id b) id = true ∧
      name_exists_entry (name_add_entry (name_add_entry c id a) id b) id2 = false := by
  intro c id id2 a b h1 h2 hne
  have hadd : name_add_entry c id a = (id, a) :: c := by
    simp [name_add_entry, h1]
  have hex : name_exists_entry ((id, a) :: c) id = true := by
    simp [name_exists_entry]
  have hadd2 : name_add_entry ((id, a) :: c) id b = (id, a) :: c := by
    simp [name_add_entry, hex]
  refine ⟨?_, ?_, ?_, ?_⟩
  · rw [hadd, hadd2]
    simp [name_find_entry]
  · rw [hadd]; exact hex
  · rw [hadd, hadd2]; exact hex
  · rw [hadd, hadd2]
    simp [name_exists_entry] at h2 ⊢
    exact ⟨fun h => absurd h.symm hne, h2⟩

/-- Witness for C6 on the empty cache with id 1, fresh id 2. -/
theorem c6_name_cache_witness :
    name_find_entry (name_add_entry (name_add_entry [] 1 "a") 1 "b") 1 = some "a" ∧
    name_exists_entry (name_add_entry [] 1 "a") 1 = true ∧
    name_exists_entry (name_add_entry (name_add_entry [] 1 "a") 1 "b") 1 = true ∧
    name_exists_entry (name_add_entry (name_add_entry [] 1 "a") 1 "b") 2 = false :=
  c6_name_cache_first_writer [] 1 2 "a" "b" (by decide) (by decide) (by decide)

/-- Claim C5: a record whose declared size differs from the fixed size
of its shape is rejected by callback_job (short) or long_callback_job
(long): the state is unchanged, the output is exactly the record_error
trace — one fault, no handler, no init/observer/filter stage. -/
theorem c5_wrong_size_rejected :
    ∀ (ops : ProvenanceOps) (sz : Sizes) (st : DispatchState) (ps : Nat)
      (rs : ShortTag) (rl : LongRecord),
      (ps ≠ sz.prov_elt →
        callback_job ops sz st ps rs =
          (st, record_error ops (Fault.wrongSize ps sz.prov_elt)) ∧
        ((callback_job ops sz st ps rs).2.countP isFaultEv = 1) ∧
        ((callback_job ops sz st ps rs).2.all
          (fun e => !(isHandlerEv e) && !(isStageEv e)) = true)) ∧
      (ps ≠ sz.long_prov_elt →
        long_callback_job ops sz st ps rl =
          (st, record_error ops (Fault.wrongSize ps sz.long_prov_elt)) ∧
        ((long_callback_job ops sz st ps rl).2.countP isFaultEv = 1) ∧
        ((long_callback_job ops sz st ps rl).2.all
          (fun e => !(isHandlerEv e) && !(isStageEv e)) = true)) := by
  intro ops sz st ps rs rl
  constructor
  · intro h
    have he : callback_job ops sz st ps rs =
        (st, record_error ops (Fault.wrongSize ps sz.prov_elt)) := by
      rw [callback_job, if_pos h]
    refine ⟨he, ?_, ?_⟩ <;>
      rw [he] <;> cases hle : ops.log_error <;>
      simp [record_error, hle, isFaultEv, isHandlerEv, isStageEv]
  · intro h
    have he : long_callback_job ops sz st ps rl =
        (st, record_error ops (Fault.wrongSize ps sz.long_prov_elt)) := by
      rw [long_callback_job, if_pos h]
    refine ⟨he, ?_, ?_⟩ <;>
      rw [he] <;> cases hle : ops.log_error <;>
      simp [record_error, hle, isFaultEv, isHandlerEv, isStageEv]

/-- Witness for C5 at declared size 5 against sz0 = (64, 256). -/
theorem c5_wrong_size_witness :
    (callback_job opsLogErrOnly sz0 st0 5 ShortTag.task =
      (st0, record_error opsLogErrOnly (Fault.wrongSize 5 64))) ∧
    ((callback_job opsLogErrOnly sz0 st0 5 ShortTag.task).2.countP isFaultEv = 1) ∧
    (long_callback_job opsLogErrOnly sz0 st0 5 lr0 =
      (st0, record_error opsLogErrOnly (Fault.wrongSize 5 256))) ∧
    ((long_callback_job opsLogErrOnly sz0 st0 5 lr0).2.countP isFaultEv = 1) := by
  have h := c5_wrong_size_rejected opsLogErrOnly sz0 st0 5 ShortTag.task lr0
  have hs := h.1 (by decide)
  have hl := h.2 (by decide)
  exact ⟨hs.1, hs.2.1, hl.1, hl.2.1⟩

/-- Whether a short tag is one of the six named relation kinds. -/
def is_relation_kind : ShortTag → Bool
  | .used | .informed | .generated | .derived | .influenced | .associated => true
  | _ => false

/-- The operations-table slot that corresponds to a relation tag. -/
def relation_slot_set (ops : ProvenanceOps) : ShortTag → Bool
  | .used => ops.log_used
  | .informed => ops.log_informed
  | .generated => ops.log_generated
  | .derived => ops.log_derived
  | .influenced => ops.log_influenced
  | .associated => ops.log_associated
  | _ => false

/-- Counterexample to claim C1: with every handler slot unset and an
error sink attached, a record of the used relation kind is not dropped
silently — relation_record falls through its chained conditional to the
final else and reports an unknown relation type, which reaches the
log_error sink. -/
theorem c1_null_slot_error_cex :
    relation_record opsLogErrOnly ShortTag.used =
      [Event.fault (Fault.unknownRelation ShortTag.used),
       Event.errorOut (Fault.unknownRelation ShortTag.used)] ∧
    relation_record opsLogErrOnly ShortTag.used ≠ [] := by
  decide

/-- Claim C1 as amended: for a short record of one of the six relation
kinds whose handler slot is unset, relation_record skips the handler
call but does not drop the record silently: each arm of the chained
conditional requires its slot to be set, so control falls through to
the final else and record_error is invoked with the "unknown relation
type" fault (no handler runs). -/
theorem c1_relation_null_slot_amended :
    ∀ (ops : ProvenanceOps) (t : ShortTag),
      is_relation_kind t = true →
      relation_slot_set ops t = false →
      relation_record ops t = record_error ops (Fault.unknownRelation t) := by
  intro ops t ht hs
  cases t <;> simp_all [is_relation_kind, relation_slot_set, relation_record,
    prov_is_used, prov_is_informed, prov_is_generated, prov_is_derived,
    prov_is_influenced, prov_is_associated]

/-- Witness for the amended C1 at the derived kind with all slots unset. -/
theorem c1_relation_null_slot_witness :
    relation_record opsAllUnset ShortTag.derived =
      record_error opsAllUnset (Fault.unknownRelation ShortTag.derived) :=
  c1_relation_null_slot_amended opsAllUnset ShortTag.derived (by decide) (by decide)

/-- Counterexample to claim C7: an EAGAIN read is not always retried in
place.  When it strikes while the accumulated length is an exact
multiple of the record size (here: the very first read of a drain, with
0 bytes accumulated), the `continue` jumps to the loop condition, which
is satisfied, and the drain completes at once: the pending data of the
next read result is never consumed and the callback fires zero times,
whereas retrying in place would read the 4 waiting bytes and dispatch
one record. -/
theorem c7_eagain_aligned_cex :
    drain_loop 4 [ReadResult.fail EAGAIN, ReadResult.ok 4] 0 = DrainOut.done 0 ∧
    drain_loop 4 [ReadResult.ok 4] 0 = DrainOut.done 4 ∧
    ___read_relay 4 [ReadResult.fail EAGAIN, ReadResult.ok 4] = [] ∧
    ___read_relay 4 [ReadResult.ok 4] = [0] := by
  decide

/-- Claim C7 as amended: during a drain, an EAGAIN read is retried in
place — continuing with the remaining reads and the accumulated bytes
intact — exactly when the accumulated length is not a multiple of the
record size; when it is a multiple (e.g. an empty buffer), the EAGAIN
ends the drain normally with the records gathered so far.  A read that
fails with any other errno aborts the drain, and an aborted drain
dispatches nothing: the buffered data is discarded without any callback
invocation and ___read_relay returns to the caller's poll loop. -/
theorem c7_drain_amended :
    ∀ (ps size e : Nat) (rest trace : List ReadResult), 0 < ps →
      (size % ps ≠ 0 →
        drain_loop ps (ReadResult.fail EAGAIN :: rest) size = drain_loop ps rest size) ∧
      (size % ps = 0 →
        drain_loop ps (ReadResult.fail EAGAIN :: rest) size = DrainOut.done size) ∧
      (e ≠ EAGAIN →
        drain_loop ps (ReadResult.fail e :: rest) size = DrainOut.aborted) ∧
      (drain_loop ps trace 0 = DrainOut.aborted → ___read_relay ps trace = []) := by
  intro ps size e rest trace _
  refine ⟨?_, ?_, ?_, ?_⟩
  · intro h
    simp [drain_loop, h]
  · intro h
    simp [drain_loop, h]
  · intro h
    simp [drain_loop, h]
  · intro h
    rw [___read_relay, h]

/-- Witness for the amended C7 at ps = 4. -/
theorem c7_drain_witness :
    (drain_loop 4 [ReadResult.fail EAGAIN, ReadResult.ok 2] 2 =
      drain_loop 4 [ReadResult.ok 2] 2) ∧
    (drain_loop 4 [ReadResult.fail EAGAIN] 0 = DrainOut.done 0) ∧
    (drain_loop 4 [ReadResult.fail 5] 2 = DrainOut.aborted) ∧
    (___read_relay 4 [ReadResult.ok 2, ReadResult.fail 5] = []) := by
  refine ⟨(c7_drain_amended 4 2 5 [ReadResult.ok 2] [] (by decide)).1 (by decide),
          (c7_drain_amended 4 0 5 [] [] (by decide)).2.1 (by decide),
          (c7_drain_amended 4 2 5 [] [] (by decide)).2.2.1 (by decide),
          (c7_drain_amended 4 0 5 [] [ReadResult.ok 2, ReadResult.fail 5]
            (by decide)).2.2.2 (by decide)⟩

/-- Claim C8's failing schedule, recorded as a theorem: two concurrent
name_add_entry calls with the same identifier 7 and names "a" and "b",
interleaved as (A: locked exists-check, B: locked exists-check, A:
locked add, B: locked add), leave TWO entries for identifier 7 — the
HASH_ADD critical section does not re-check existence, it trusts the
earlier, separately locked lookup.  Under a serial schedule (A runs
both steps before B) exactly one entry results. -/
theorem c8_concurrent_insert_duplicate :
    ((run_sched 7 "a" "b" [true, false, true, false] []
        { pc := 0, found := false } { pc := 0, found := false }).countP
          (fun e => e.1 == 7) = 2) ∧
    ((run_sched 7 "a" "b" [true, true, false, false] []
        { pc := 0, found := false } { pc := 0, found := false }).countP
          (fun e => e.1 == 7) = 1) := by
  decide

/-- Claim C2's failing environment, recorded as a theorem: with 300
online CPUs the assignment `ncpus = sysconf(_SC_NPROCESSORS_ONLN)`
truncates to the uint8_t value 44, the `ncpus > NUMBER_CPUS` guard
(44 > 256) is false, and registration proceeds: it returns 0, opens 44
short channels, and submits 88 reader tasks — instead of detecting the
over-limit count and failing with -1 before opening anything. -/
theorem c2_cpu_overflow_check_dead :
    (provenance_relay_register env300).1 = 0 ∧
    (provenance_relay_register env300).2.openShort.length = 44 ∧
    (provenance_relay_register env300).2.openLong.length = 44 ∧
    (provenance_relay_register env300).2.poolTasks = 88 := by
  decide

lemma long_prov_record_cache (ops : ProvenanceOps) (c : NameCache) (r : LongRecord) :
    (long_prov_record ops c r).1 =
      if r.tag = LongTag.path then name_add_entry c r.id r.name else c := by
  rcases r with ⟨tag, id, nm⟩
  cases tag <;> simp [long_prov_record]

lemma noCacheInsert_prov_record (ops : ProvenanceOps) (t : ShortTag) :
    (prov_record ops t).all (fun e => !(isCacheInsertEv e)) = true := by
  cases t <;>
    simp [prov_record, prov_is_relation, relation_record, node_record,
      record_error, isCacheInsertEv, prov_is_used, prov_is_informed,
      prov_is_generated, prov_is_derived, prov_is_influenced,
      prov_is_associated] <;>
    split_ifs <;> simp [isCacheInsertEv]

lemma callback_job_cache (ops : ProvenanceOps) (sz : Sizes) (st : DispatchState)
    (ps : Nat) (rs : ShortTag) :
    (callback_job ops sz st ps rs).1.cache = st.cache := by
  cases hf : ops.filter with
  | none =>
      simp only [callback_job, hf]
      split_ifs <;> simp
  | some f =>
      simp only [callback_job, hf]
      split_ifs <;> simp

lemma long_callback_job_cache (ops : ProvenanceOps) (sz : Sizes)
    (st : DispatchState) (ps : Nat) (rl : LongRecord)
    (h : rl.tag ≠ LongTag.path) :
    (long_callback_job ops sz st ps rl).1.cache = st.cache := by
  have hc1 : ∀ c, (long_prov_record ops c rl).1 = c := by
    intro c
    rw [long_prov_record_cache, if_neg h]
  cases hf : ops.filter with
  | none =>
      simp only [long_callback_job, hf]
      split_ifs <;> simp [hc1]
  | some f =>
      simp only [long_callback_job, hf]
      split_ifs <;> simp [hc1]

/-- Claim C9: the name cache is mutated only when dispatching a long
record of the ENT_PATH kind; there the (identifier, name) pair is
inserted (name_add_entry) before the log_file_name handler fires.  A
short record of any kind leaves the cache untouched at every stage of
callback_job, a short dispatch emits no cache-insertion action at all,
and a long record of any other kind leaves the cache untouched through
the whole of long_callback_job. -/
theorem c9_path_only_cache_mutation :
    ∀ (ops : ProvenanceOps) (c : NameCache) (r : LongRecord) (t : ShortTag)
      (sz : Sizes) (st : DispatchState) (ps : Nat),
      ((long_prov_record ops c r).1 =
        if r.tag = LongTag.path then name_add_entry c r.id r.name else c) ∧
      (r.tag = LongTag.path →
        (long_prov_record ops c r).2 =
          Event.cacheInsert r.id r.name ::
            (if ops.log_file_name then [Event.handler Handler.fileName] else [])) ∧
      (r.tag ≠ LongTag.path →
        (long_prov_record ops c r).2.all (fun e => !(isCacheInsertEv e)) = true) ∧
      ((callback_job ops sz st ps t).1.cache = st.cache) ∧
      ((prov_record ops t).all (fun e => !(isCacheInsertEv e)) = true) ∧
      (r.tag ≠ LongTag.path →
        (long_callback_job ops sz st ps r).1.cache = st.cache) := by
  intro ops c r t sz st ps
  refine ⟨long_prov_record_cache ops c r, ?_, ?_, callback_job_cache ops sz st ps t,
    noCacheInsert_prov_record ops t, long_callback_job_cache ops sz st ps r⟩
  · intro h
    rcases r with ⟨tag, id, nm⟩
    simp only at h
    subst h
    simp [long_prov_record]
  · intro h
    rcases r with ⟨tag, id, nm⟩
    simp only at h
    cases tag <;>
      simp_all [long_prov_record, isCacheInsertEv, record_error]

/-- Witness for C9: a path record inserts into the cache before its
handler; a string record leaves the cache unchanged. -/
theorem c9_cache_frame_witness :
    ((long_prov_record opsLogErrOnly [] { tag := LongTag.path, id := 5, name := "n" }).1 =
      name_add_entry [] 5 "n") ∧
    ((long_prov_record opsLogErrOnly [] { tag := LongTag.path, id := 5, name := "n" }).2 =
      [Event.cacheInsert 5 "n"]) ∧
    ((long_callback_job opsLogErrOnly sz0 st0 256 lr0).1.cache = st0.cache) ∧
    ((callback_job opsLogErrOnly sz0 st0 64 ShortTag.task).1.cache = st0.cache) := by
  have h := c9_path_only_cache_mutation opsLogErrOnly []
    { tag := LongTag.path, id := 5, name := "n" } ShortTag.task sz0 st0 64
  have h2 := c9_path_only_cache_mutation opsLogErrOnly [] lr0 ShortTag.task sz0 st0 256
  refine ⟨?_, ?_, h2.2.2.2.2.2 (by decide), h.2.2.2.1⟩
  · rw [h.1]; decide
  · rw [h.2.1 rfl]; decide

lemma record_error_no_sink (ops : ProvenanceOps) (f : Fault)
    (h : ops.log_error = false) : record_error ops f = [Event.fault f] := by
  simp [record_error, h]

lemma noErrorOut_prov_record (ops : ProvenanceOps) (t : ShortTag)
    (h : ops.log_error = false) : noErrorOut (prov_record ops t) = true := by
  cases t <;>
    simp [prov_record, prov_is_relation, relation_record, node_record,
      record_error, h, noErrorOut, isErrorOutEv, prov_is_used, prov_is_informed,
      prov_is_generated, prov_is_derived, prov_is_influenced,
      prov_is_associated] <;>
    split_ifs <;> simp [isErrorOutEv]

lemma noErrorOut_long_prov_record (ops : ProvenanceOps) (c : NameCache)
    (rl : LongRecord) (h : ops.log_error = false) :
    noErrorOut (long_prov_record ops c rl).2 = true := by
  rcases rl with ⟨tag, id, nm⟩
  cases tag <;>
    simp [long_prov_record, record_error, h, noErrorOut, isErrorOutEv]

lemma noErrorOut_callback_job (ops : ProvenanceOps) (sz : Sizes)
    (st : DispatchState) (ps : Nat) (rs : ShortTag)
    (h : ops.log_error = false) :
    noErrorOut (callback_job ops sz st ps rs).2 = true := by
  have hp := noErrorOut_prov_record ops rs h
  simp only [noErrorOut] at hp ⊢
  cases hf : ops.filter with
  | none =>
      simp only [callback_job, hf]
      split_ifs <;>
        simp_all [record_error, h, isErrorOutEv, List.all_append]
  | some f =>
      simp only [callback_job, hf]
      split_ifs <;>
        simp_all [record_error, h, isErrorOutEv, List.all_append]

lemma noErrorOut_long_callback_job (ops : ProvenanceOps) (sz : Sizes)
    (st : DispatchState) (ps : Nat) (rl : LongRecord)
    (h : ops.log_error = false) :
    noErrorOut (long_callback_job ops sz st ps rl).2 = true := by
  have hp : ∀ c, noErrorOut (long_prov_record ops c rl).2 = true :=
    fun c => noErrorOut_long_prov_record ops c rl h
  simp only [noErrorOut] at hp ⊢
  cases hf : ops.filter with
  | none =>
      simp only [long_callback_job, hf]
      split_ifs <;>
        (try simp_all [record_error, h, isErrorOutEv, List.all_append]) <;>
        exact hp _
  | some f =>
      simp only [long_callback_job, hf]
      split_ifs <;>
        (try simp_all [record_error, h, isErrorOutEv, List.all_append]) <;>
        exact hp _

/-- Claim C10: when the operations table's log_error slot is NULL,
record_error formats the message and then discards it — the trace shows
the formatting but no delivery to any sink — and consequently no run of
either callback pipeline ever emits output to an error sink: every
runtime fault is dropped silently, with no fallback. -/
theorem c10_null_log_error_silent :
    ∀ (ops : ProvenanceOps) (f : Fault) (sz : Sizes) (st : DispatchState)
      (ps : Nat) (rs : ShortTag) (rl : LongRecord),
      ops.log_error = false →
      record_error ops f = [Event.fault f] ∧
      noErrorOut (callback_job ops sz st ps rs).2 = true ∧
      noErrorOut (long_callback_job ops sz st ps rl).2 = true := by
  intro ops f sz st ps rs rl h
  exact ⟨record_error_no_sink ops f h,
    noErrorOut_callback_job ops sz st ps rs h,
    noErrorOut_long_callback_job ops sz st ps rl h⟩

/-- Witness for C10: with every slot unset, a read-failure fault is
formatted and dropped, and wrong-size records produce no sink output. -/
theorem c10_silent_witness :
    record_error opsAllUnset (Fault.readFailed 5) =
      [Event.fault (Fault.readFailed 5)] ∧
    noErrorOut (callback_job opsAllUnset sz0 st0 3 ShortTag.used).2 = true ∧
    noErrorOut (long_callback_job opsAllUnset sz0 st0 3 lr0).2 = true :=
  c10_null_log_error_silent opsAllUnset (Fault.readFailed 5) sz0 st0 3
    ShortTag.used lr0 rfl

/-- Every per-CPU channel open below n succeeds in this environment. -/
def opens_ok (env : RegEnv) (n : Nat) : Prop :=
  ∀ i, i < n → env.open_ok i false = true ∧ env.open_ok i true = true

lemma open_files_go_succeeds (env : RegEnv) :
    ∀ (fuel i : Nat) (st : RegState),
      (∀ j, j < fuel → env.open_ok (i + j) false = true ∧ env.open_ok (i + j) true = true) →
      open_files_go env fuel i st =
        (true, { st with openShort := st.openShort ++ List.range' i fuel,
                         openLong := st.openLong ++ List.range' i fuel }) := by
  intro fuel
  induction fuel with
  | zero => intro i st _; simp [open_files_go]
  | succ f ih =>
      intro i st hok
      have h0 := hok 0 (Nat.succ_pos f)
      simp only [Nat.add_zero] at h0
      have hrest : ∀ j, j < f →
          env.open_ok (i + 1 + j) false = true ∧ env.open_ok (i + 1 + j) true = true := by
        intro j hj
        have := hok (j + 1) (by omega)
        simpa [Nat.add_assoc, Nat.add_comm 1 j] using this
      rw [open_files_go]
      simp only [h0.1, h0.2, if_true]
      rw [ih (i + 1) _ hrest]
      simp [List.range'_succ, List.append_assoc]

lemma open_files_go_fails (env : RegEnv) :
    ∀ (fuel i : Nat) (st : RegState),
      (∃ j, j < fuel ∧
        (env.open_ok (i + j) false = false ∨ env.open_ok (i + j) true = false)) →
      (open_files_go env fuel i st).1 = false := by
  intro fuel
  induction fuel with
  | zero =>
      intro i st h
      obtain ⟨j, hj, _⟩ := h
      omega
  | succ f ih =>
      intro i st h
      obtain ⟨j, hj, hfail⟩ := h
      rw [open_files_go]
      cases hs : env.open_ok i false with
      | false => simp
      | true =>
          simp only [if_true]
          cases hl : env.open_ok i true with
          | false => simp
          | true =>
              simp only [if_true]
              cases j with
              | zero => simp [Nat.add_zero] at hfail; rcases hfail with h1 | h1 <;> simp_all
              | succ j =>
                  apply ih
                  refine ⟨j, by omega, ?_⟩
                  rcases hfail with h1 | h1
                  · exact Or.inl (by simpa [Nat.add_assoc, Nat.add_comm 1 j] using h1)
                  · exact Or.inr (by simpa [Nat.add_assoc, Nat.add_comm 1 j] using h1)

lemma register_guard_dead (env : RegEnv) :
    ¬ (env.online_cpus % 256 > NUMBER_CPUS) := by
  have : env.online_cpus % 256 < 256 := Nat.mod_lt _ (by norm_num)
  simp only [NUMBER_CPUS]
  omega

lemma register_eq_of_all_ok (env : RegEnv) (hopq : env.opq_result = 0)
    (hopen : opens_ok env (env.online_cpus % 256)) :
    provenance_relay_register env =
      (if env.pid_ok then (if env.nash_ok then 0 else -1) else -1,
       { openShort := List.range (env.online_cpus % 256),
         openLong := List.range (env.online_cpus % 256),
         poolCreated := env.pool_init_ok,
         poolTasks := 2 * (env.online_cpus % 256) }) := by
  have hof : open_files env (env.online_cpus % 256) =
      (true, { openShort := List.range (env.online_cpus % 256),
               openLong := List.range (env.online_cpus % 256),
               poolCreated := false, poolTasks := 0 }) := by
    rw [open_files, open_files_go_succeeds env _ 0 initRegState (by simpa using hopen)]
    simp [initRegState, List.range_eq_range']
  rw [provenance_relay_register]
  rw [if_neg (by simp [hopq])]
  simp only [register_guard_dead env, if_false, ite_false, hof, create_worker_pool,
    Bool.not_true, Bool.false_eq_true, reduceIte, ne_eq, not_true_eq_false]
  cases env.pid_ok <;> cases env.nash_ok <;> simp

lemma register_fst_of_open_fail (env : RegEnv) (hopq : env.opq_result = 0)
    (hopen : ¬ opens_ok env (env.online_cpus % 256)) :
    (provenance_relay_register env).1 = -1 := by
  have hfail : (open_files env (env.online_cpus % 256)).1 = false := by
    rw [open_files]
    apply open_files_go_fails
    rw [opens_ok] at hopen
    push_neg at hopen
    obtain ⟨i, hi, hf⟩ := hopen
    refine ⟨i, hi, ?_⟩
    simp only [Nat.zero_add]
    cases hsf : env.open_ok i false with
    | false => exact Or.inl rfl
    | true =>
        cases hsl : env.open_ok i true with
        | false => exact Or.inr rfl
        | true => exact (hf hsf hsl).elim
  rw [provenance_relay_register]
  rw [if_neg (by simp [hopq])]
  simp [register_guard_dead env, hfail]

/-- Counterexample to claim C3: on a 2-CPU machine where every step
succeeds except the PID-file write, provenance_relay_register returns
-1 but the caller does NOT observe a fully unregistered system — both
channels of both kinds are still open and the worker pool is still
running its 4 submitted reader tasks.  (The documented partial-open
leak concerns a failure inside open_files; this failure is later, after
the pool was created.) -/
theorem c3_pidfail_leaves_pool_cex :
    provenance_relay_register envPidFail =
      (-1, { openShort := [0, 1], openLong := [0, 1],
             poolCreated := true, poolTasks := 4 }) := by
  decide

/-- Claim C3 as amended.  provenance_relay_register returns 0 iff the
set-opaque call, every channel open, the PID-file write and the
cache-lock init succeed — worker-pool creation cannot fail this check
because create_worker_pool returns 0 unconditionally (a NULL pool from
thpool_init goes unnoticed).  A set-opaque failure returns that call's
error (not necessarily -1) with nothing acquired; but when the PID-file
write or the cache-lock init fails, the function returns -1 with the
worker pool still running all 2·ncpus reader tasks and every channel of
both kinds still open — the caller does not observe an unregistered
system. -/
theorem c3_register_amended :
    ∀ env : RegEnv,
      ((provenance_relay_register env).1 = 0 ↔
        (env.opq_result = 0 ∧ opens_ok env (env.online_cpus % 256) ∧
         env.pid_ok = true ∧ env.nash_ok = true)) ∧
      (env.opq_result ≠ 0 →
        provenance_relay_register env = (env.opq_result, initRegState)) ∧
      (env.opq_result = 0 → opens_ok env (env.online_cpus % 256) →
        (env.pid_ok = false ∨ env.nash_ok = false) →
        (provenance_relay_register env).1 = -1 ∧
        (provenance_relay_register env).2.poolTasks = 2 * (env.online_cpus % 256) ∧
        (provenance_relay_register env).2.openShort.length = env.online_cpus % 256 ∧
        (provenance_relay_register env).2.openLong.length = env.online_cpus % 256) := by
  intro env
  have hopqcase : env.opq_result ≠ 0 →
      provenance_relay_register env = (env.opq_result, initRegState) := by
    intro h
    rw [provenance_relay_register, if_pos h]
  refine ⟨?_, hopqcase, ?_⟩
  · constructor
    · intro h0
      by_cases hopq : env.opq_result = 0
      · by_cases hopen : opens_ok env (env.online_cpus % 256)
        · have he := register_eq_of_all_ok env hopq hopen
          rw [he] at h0
          cases hp : env.pid_ok
          · cases hnash : env.nash_ok
            · simp [hp, hnash] at h0
            · simp [hp, hnash] at h0
          · cases hnash : env.nash_ok
            · simp [hp, hnash] at h0
            · exact ⟨hopq, hopen, rfl, rfl⟩
        · rw [register_fst_of_open_fail env hopq hopen] at h0
          exact absurd h0 (by norm_num)
      · rw [hopqcase hopq] at h0
        exact absurd h0 hopq
    · rintro ⟨hopq, hopen, hpid, hnash⟩
      rw [register_eq_of_all_ok env hopq hopen]
      simp [hpid, hnash]
  · intro hopq hopen hfail
    rw [register_eq_of_all_ok env hopq hopen]
    rcases hfail with h | h <;> simp [h]

/-- Witness for the amended C3 in envPidFail (2 CPUs, PID write fails):
registration reports -1 yet leaves 4 pool tasks and 2+2 open channels. -/
theorem c3_register_witness :
    (provenance_relay_register envPidFail).1 = -1 ∧
    (provenance_relay_register envPidFail).2.poolTasks = 4 ∧
    (provenance_relay_register envPidFail).2.openShort.length = 2 ∧
    (provenance_relay_register envPidFail).2.openLong.length = 2 := by
  have h := (c3_register_amended envPidFail).2.2 rfl
    (fun i _ => ⟨rfl, rfl⟩) (Or.inl rfl)
  exact ⟨h.1, h.2.1, h.2.2.1, h.2.2.2⟩
